import Mathlib

/-!
Shallow embedding of the process lifecycle supervisor implemented in
`01-process-management/examples/advanced/lifecycle_manager.go`.

The Go program mutates a `ProcessLifecycleManager` (a map of ids to
`*ManagedProcess` records) in place; here each method becomes a pure
function from the manager state (plus the oracle inputs standing for the
operating system: launch outcomes, signal-delivery success, graceful-exit
outcomes, the clock) to the new manager state together with the method's
error return.  Timestamps are `Nat` ticks; OS pids are `Nat`.
-/

namespace Lifecycle

/-- `ProcessState` from lifecycle_manager.go (lines 45-53). -/
inductive ProcessState
  | Created
  | Starting
  | Running
  | Stopping
  | Stopped
  | Failed
  | Restarting
deriving DecidableEq, Repr

/-- The pluggable health checker: the Go code has `DefaultHealthChecker`
and `HTTPHealthChecker`; we only track which implementation a record holds. -/
inductive HealthCheckerKind
  | defaultChecker
  | httpChecker
deriving DecidableEq, Repr

/-- `ManagedProcess` (lines 24-40).  `hasCmd` models whether the `cmd`
field is a non-nil handle with a non-nil `Process` (set by a successful
`cmd.Start()`); `logFile` is carried but unused by the modelled paths. -/
structure ManagedProcess where
  id : Nat
  pid : Nat
  name : String
  command : List String
  state : ProcessState
  startTime : Nat
  endTime : Option Nat
  restartCount : Nat
  maxRestarts : Nat
  healthCheck : HealthCheckerKind
  dependencies : List Nat
  environment : List (String × String)
  workDir : String
  logFile : String
  hasCmd : Bool
deriving DecidableEq, Repr

/-- `ProcessLifecycleManager` (lines 16-21).  The `processes` map is an
association list keyed by id; `shutdownClosed` records whether
`shutdownChannel` has been closed (Go panics on closing it twice). -/
structure ProcessLifecycleManager where
  processes : List (Nat × ManagedProcess)
  nextProcessID : Nat
  shutdownClosed : Bool
deriving DecidableEq, Repr

/-- `NewProcessLifecycleManager` (lines 94-100). -/
def newPLM : ProcessLifecycleManager :=
  { processes := [], nextProcessID := 1, shutdownClosed := false }

/-- Map lookup `plm.processes[processID]`. -/
def lookupProc (plm : ProcessLifecycleManager) (id : Nat) : Option ManagedProcess :=
  (plm.processes.find? (fun kv => kv.1 == id)).map (fun kv => kv.2)

/-- Writing back a record under its id (in Go the records are shared
pointers, so field assignments are visible through the map). -/
def setProc (plm : ProcessLifecycleManager) (id : Nat) (p : ManagedProcess) :
    ProcessLifecycleManager :=
  { plm with processes := plm.processes.map (fun kv => if kv.1 == id then (id, p) else kv) }

/-- `CreateProcess` (lines 103-124): unconditionally allocates a record
in state `Created` under the next id and returns it; there is no failure
path.  `now` stands for `time.Now()`. -/
def createProcess (plm : ProcessLifecycleManager) (name : String)
    (command : List String) (now : Nat) :
    ProcessLifecycleManager × ManagedProcess :=
  let p : ManagedProcess :=
    { id := plm.nextProcessID
      pid := 0
      name := name
      command := command
      state := .Created
      startTime := now
      endTime := none
      restartCount := 0
      maxRestarts := 3
      healthCheck := .defaultChecker
      dependencies := []
      environment := []
      workDir := "/tmp"
      logFile := ""
      hasCmd := false }
  ({ plm with
      processes := plm.processes ++ [(p.id, p)]
      nextProcessID := plm.nextProcessID + 1 }, p)

/-- `checkDependencies` (lines 297-309): every dependency id must exist
and its record must be in state `Running`. -/
def checkDependencies (plm : ProcessLifecycleManager) (p : ManagedProcess) : Bool :=
  p.dependencies.all (fun depID =>
    match lookupProc plm depID with
    | some dep => dep.state == .Running
    | none => false)

/-- Outcome of `cmd.Start()` as seen by the supervisor: either the OS
launches the process and reports its pid, or launching fails. -/
inductive LaunchResult
  | ok (pid : Nat)
  | fail
deriving DecidableEq, Repr

/-- `StartProcess` (lines 127-181).  Checks existence, then dependencies;
on a launch error sets the state to `Failed`; on success records the pid,
sets `Running` and refreshes `startTime`.  Note that the Go code performs
no check of the record's current state. -/
def startProcess (plm : ProcessLifecycleManager) (id : Nat)
    (launch : LaunchResult) (now : Nat) :
    ProcessLifecycleManager × Option String :=
  match lookupProc plm id with
  | none => (plm, some ("process " ++ toString id ++ " not found"))
  | some p =>
    if checkDependencies plm p then
      match launch with
      | .fail =>
        (setProc plm id { p with state := .Failed },
         some ("failed to start process " ++ toString id))
      | .ok pid =>
        (setProc plm id
          { p with state := .Running, pid := pid, startTime := now, hasCmd := true },
         none)
    else
      (plm, some ("dependencies not satisfied for process " ++ toString id))

/-- Observable events inside `StopProcess`, in program order. -/
inductive StopEvent
  | sigTermSent
  | sigTermFailed
  | procExited
  | killed
  | setStopped
deriving DecidableEq, Repr

/-- The OS-side outcomes `StopProcess` depends on: whether SIGTERM
delivery succeeds and whether the process exits within the 10 s grace
period. -/
structure StopEnv where
  sigOk : Bool
  graceful : Bool
deriving DecidableEq, Repr

/-- `StopProcess` (lines 184-230).  Requires state `Running`; sets
`Stopping`; if SIGTERM delivery fails it returns that error at once (the
record is left in `Stopping`); otherwise it waits for exit, force-killing
after the grace period, and only then sets `Stopped` and the end
timestamp (`now` stands for the `time.Now()` taken after the wait).  The
third component is the trace of observable events. -/
def stopProcess (plm : ProcessLifecycleManager) (id : Nat)
    (env : StopEnv) (now : Nat) :
    ProcessLifecycleManager × Option String × List StopEvent :=
  match lookupProc plm id with
  | none => (plm, some ("process " ++ toString id ++ " not found"), [])
  | some p =>
    if p.state = .Running then
      let p1 := { p with state := .Stopping }
      if p.hasCmd then
        if env.sigOk then
          let trace :=
            if env.graceful then
              [StopEvent.sigTermSent, StopEvent.procExited, StopEvent.setStopped]
            else
              [StopEvent.sigTermSent, StopEvent.killed, StopEvent.procExited,
               StopEvent.setStopped]
          (setProc plm id { p1 with state := .Stopped, endTime := some now },
           none, trace)
        else
          (setProc plm id p1,
           some ("failed to send SIGTERM to process " ++ toString id),
           [StopEvent.sigTermFailed])
      else
        (setProc plm id { p1 with state := .Stopped, endTime := some now },
         none, [StopEvent.setStopped])
    else
      (plm, some ("process " ++ toString id ++ " is not running"), [])

/-- Result of `RestartProcess`: the new manager, the error return, whether
the `StopProcess` call inside it was reached, and the record as it stood
when `StartProcess` was invoked (`none` when no start was attempted). -/
structure RestartResult where
  plm : ProcessLifecycleManager
  err : Option String
  stopInvoked : Bool
  recordAtStart : Option ManagedProcess
deriving Repr

/-- `RestartProcess` (lines 233-262).  Rejects a missing record or an
exhausted budget; otherwise sets `Restarting` and increments the counter,
then tests `process.State == StateRunning || process.State == StateStarting`
— reading the state it has just overwritten — stops if that test passes,
sleeps, and calls `StartProcess`. -/
def restartProcess (plm : ProcessLifecycleManager) (id : Nat)
    (stopEnv : StopEnv) (launch : LaunchResult) (now : Nat) : RestartResult :=
  match lookupProc plm id with
  | none =>
    { plm := plm, err := some ("process " ++ toString id ++ " not found")
      stopInvoked := false, recordAtStart := none }
  | some p =>
    if p.maxRestarts ≤ p.restartCount then
      { plm := plm
        err := some ("process " ++ toString id ++
          " has exceeded maximum restart count (" ++ toString p.maxRestarts ++ ")")
        stopInvoked := false, recordAtStart := none }
    else
      let p1 := { p with state := ProcessState.Restarting,
                         restartCount := p.restartCount + 1 }
      let plm1 := setProc plm id p1
      let stopNeeded := p1.state = .Running ∨ p1.state = .Starting
      let plm2 := if p1.state = .Running ∨ p1.state = .Starting
                  then (stopProcess plm1 id stopEnv now).1 else plm1
      let res := startProcess plm2 id launch now
      { plm := res.1, err := res.2
        stopInvoked := decide stopNeeded
        recordAtStart := lookupProc plm2 id }

/-- What one tick of `monitorProcess` (lines 269-293) decides to do. -/
inductive MonitorAction
  | exitLoop
  | continueLoop
  | restartTriggered
  | failedNoRestart
deriving DecidableEq, Repr

/-- One tick of the monitor loop: exit if the record left `Running`;
otherwise run the health check (`healthy` is its oracle result); on a
failure set `Failed` and trigger `RestartProcess` only while the restart
counter is below the maximum. -/
def monitorTick (p : ManagedProcess) (healthy : Bool) :
    MonitorAction × ManagedProcess :=
  if p.state = .Running then
    if healthy then (.continueLoop, p)
    else
      let p1 := { p with state := ProcessState.Failed }
      if p.restartCount < p.maxRestarts then (.restartTriggered, p1)
      else (.failedNoRestart, p1)
  else (.exitLoop, p)

/-- `ShutdownAll` (lines 358-378).  `close(plm.shutdownChannel)` panics
when the channel is already closed, which we surface as `Except.error`;
otherwise the running records are collected and each is stopped. -/
def shutdownAll (plm : ProcessLifecycleManager) (env : StopEnv) (now : Nat) :
    Except String ProcessLifecycleManager :=
  if plm.shutdownClosed then
    .error "close of closed channel"
  else
    let plm1 := { plm with shutdownClosed := true }
    let runningIDs :=
      (plm1.processes.filter (fun kv => kv.2.state == .Running)).map (fun kv => kv.1)
    .ok (runningIDs.foldl (fun acc i => (stopProcess acc i env now).1) plm1)

/-- `SetProcessDependencies` (lines 398-409). -/
def setProcessDependencies (plm : ProcessLifecycleManager) (id : Nat)
    (deps : List Nat) : ProcessLifecycleManager × Option String :=
  match lookupProc plm id with
  | none => (plm, some ("process " ++ toString id ++ " not found"))
  | some p => (setProc plm id { p with dependencies := deps }, none)

/-- Repeated invocations of `RestartProcess` on one record; the second
component counts how many of the invocations reached `StartProcess`
(i.e. how many restart-driven launch attempts were made). -/
def iterRestarts (plm : ProcessLifecycleManager) (id : Nat)
    (envs : List (StopEnv × LaunchResult × Nat)) :
    ProcessLifecycleManager × Nat :=
  match envs with
  | [] => (plm, 0)
  | e :: rest =>
    let r := restartProcess plm id e.1 e.2.1 e.2.2
    let t := iterRestarts r.plm id rest
    (t.1, (if r.recordAtStart.isSome then 1 else 0) + t.2)

/-- In an event trace, every `setStopped` is preceded by a `procExited`:
the transition to `Stopped` happens only after the process has exited. -/
def stoppedAfterExit (tr : List StopEvent) : Prop :=
  ∀ i : Fin tr.length, tr.get i = StopEvent.setStopped →
    ∃ j : Fin tr.length, j.1 < i.1 ∧ tr.get j = StopEvent.procExited

/-- A `StopEnv` where SIGTERM delivery succeeds and the process exits
within the grace period. -/
def stopEnvOk : StopEnv := { sigOk := true, graceful := true }

/-- A `StopEnv` where SIGTERM delivery fails. -/
def stopEnvSigFail : StopEnv := { sigOk := false, graceful := true }

/-- Manager after `CreateProcess("sleeper", ["sleep", "30"])` on a fresh
manager: one record, id 1, state `Created`. -/
def exCreated : ProcessLifecycleManager :=
  (createProcess newPLM "sleeper" ["sleep", "30"] 0).1

/-- `exCreated` after a successful `StartProcess(1)` that launched OS
pid 42 at time 1: record 1 is `Running`. -/
def exRunning : ProcessLifecycleManager :=
  (startProcess exCreated 1 (LaunchResult.ok 42) 1).1

/-- The record stored under id 1 in `exRunning`. -/
def exRunningRec : ManagedProcess :=
  { (createProcess newPLM "sleeper" ["sleep", "30"] 0).2 with
      state := ProcessState.Running, pid := 42, startTime := 1, hasCmd := true }

/-- `exRunning` after a successful `StopProcess(1)` at time 2: record 1
is `Stopped`. -/
def exStopped : ProcessLifecycleManager :=
  (stopProcess exRunning 1 stopEnvOk 2).1

/-- A one-record manager whose record has already consumed its whole
restart budget (`restartCount = maxRestarts = 3`). -/
def exExhaustedRec : ManagedProcess :=
  { (createProcess newPLM "sleeper" ["sleep", "30"] 0).2 with restartCount := 3 }

/-- Manager holding `exExhaustedRec` under id 1. -/
def exExhausted : ProcessLifecycleManager :=
  { processes := [(1, exExhaustedRec)], nextProcessID := 2, shutdownClosed := false }

/-- Two records: id 1 `Created`, id 2 `Created` with a dependency on 1
(which is not `Running`), as set by `SetProcessDependencies(2, [1])`. -/
def exDeps : ProcessLifecycleManager :=
  (setProcessDependencies
    (createProcess (createProcess newPLM "dep" ["sleep", "30"] 0).1
      "main" ["sleep", "30"] 0).1
    2 [1]).1

/-- The record stored under id 2 in `exDeps`. -/
def exDepsRec : ManagedProcess :=
  { (createProcess (createProcess newPLM "dep" ["sleep", "30"] 0).1
      "main" ["sleep", "30"] 0).2 with dependencies := [1] }

/-! Basic lemmas about the registry map. -/

/-- Point update of the association list, seen through `find?`. -/
theorem find?_map_set (l : List (Nat × ManagedProcess)) (id : Nat) (p : ManagedProcess) :
    List.find? (fun kv => kv.1 == id)
        (l.map (fun kv => if kv.1 == id then (id, p) else kv))
      = (List.find? (fun kv => kv.1 == id) l).map (fun _ => (id, p)) := by
  induction l with
  | nil => rfl
  | cons kv t ih =>
    cases h : (kv.1 == id) with
    | true =>
      simp only [List.map_cons, h, if_true, List.find?_cons]
      have hid : ((id, p).1 == id) = true := by simp
      simp [hid, h]
    | false =>
      simp only [List.map_cons, h, if_false]
      rw [List.find?_cons_of_neg _ (by simp [h]), ih,
        List.find?_cons_of_neg _ (by simp [h])]

/-- Updating a present id makes subsequent lookups of it return the new
record. -/
theorem lookupProc_setProc_self (plm : ProcessLifecycleManager) (id : Nat)
    (p q : ManagedProcess) (h : lookupProc plm id = some q) :
    lookupProc (setProc plm id p) id = some p := by
  unfold lookupProc setProc at *
  simp only [find?_map_set]
  cases hf : List.find? (fun kv => kv.1 == id) plm.processes with
  | none => rw [hf] at h; simp at h
  | some kv => simp [hf]

/-- `setProc` leaves the shutdown flag alone. -/
theorem setProc_shutdownClosed (plm : ProcessLifecycleManager) (id : Nat)
    (p : ManagedProcess) : (setProc plm id p).shutdownClosed = plm.shutdownClosed := rfl

/-- `stopProcess` leaves the shutdown flag alone. -/
theorem stopProcess_shutdownClosed (plm : ProcessLifecycleManager) (id : Nat)
    (env : StopEnv) (now : Nat) :
    (stopProcess plm id env now).1.shutdownClosed = plm.shutdownClosed := by
  unfold stopProcess
  cases lookupProc plm id with
  | none => rfl
  | some p =>
    by_cases hs : p.state = ProcessState.Running <;>
      simp [hs, setProc_shutdownClosed] <;>
      cases p.hasCmd <;>
      cases env.sigOk <;>
      simp [setProc_shutdownClosed]

/-- Folding `stopProcess` over a list of ids leaves the shutdown flag
alone. -/
theorem foldl_stopProcess_shutdownClosed (env : StopEnv) (now : Nat)
    (ids : List Nat) :
    ∀ acc : ProcessLifecycleManager,
      (ids.foldl (fun a i => (stopProcess a i env now).1) acc).shutdownClosed
        = acc.shutdownClosed := by
  induction ids with
  | nil => intro acc; rfl
  | cons i t ih =>
    intro acc
    rw [List.foldl_cons, ih, stopProcess_shutdownClosed]

/-- A successful or failed `startProcess` never touches the restart
counter or the restart budget of the record. -/
theorem startProcess_preserves (plm : ProcessLifecycleManager) (id : Nat)
    (launch : LaunchResult) (now : Nat) (p : ManagedProcess)
    (h : lookupProc plm id = some p) :
    ∃ q, lookupProc (startProcess plm id launch now).1 id = some q ∧
      q.restartCount = p.restartCount ∧ q.maxRestarts = p.maxRestarts := by
  unfold startProcess
  rw [h]
  by_cases hd : checkDependencies plm p
  · cases launch with
    | fail =>
      simp only [hd, if_true]
      exact ⟨_, lookupProc_setProc_self plm id _ p h, rfl, rfl⟩
    | ok pid =>
      simp only [hd, if_true]
      exact ⟨_, lookupProc_setProc_self plm id _ p h, rfl, rfl⟩
  · simp only [hd, if_false]
    exact ⟨p, h, rfl, rfl⟩

/-- `stopProcess` never touches the pid, the restart counter or the
restart budget of the record. -/
theorem stopProcess_preserves (plm : ProcessLifecycleManager) (id : Nat)
    (env : StopEnv) (now : Nat) (p : ManagedProcess)
    (h : lookupProc plm id = some p) :
    ∃ q, lookupProc (stopProcess plm id env now).1 id = some q ∧
      q.restartCount = p.restartCount ∧ q.maxRestarts = p.maxRestarts ∧
      q.pid = p.pid := by
  unfold stopProcess
  rw [h]
  by_cases hs : p.state = ProcessState.Running
  · simp only [hs, if_true]
    cases hc : p.hasCmd <;> cases ho : env.sigOk <;>
      simp only [Bool.false_eq_true, if_true, if_false] <;>
      exact ⟨_, lookupProc_setProc_self plm id _ p h, rfl, rfl, rfl⟩
  · simp only [hs, if_false]
    exact ⟨p, h, rfl, rfl, rfl⟩

/-- When the restart budget is already used up, `restartProcess` rejects
the call and changes nothing. -/
theorem restartProcess_guard (plm : ProcessLifecycleManager) (id : Nat)
    (e : StopEnv) (l : LaunchResult) (n : Nat) (p : ManagedProcess)
    (h : lookupProc plm id = some p) (hge : p.maxRestarts ≤ p.restartCount) :
    restartProcess plm id e l n =
      { plm := plm
        err := some ("process " ++ toString id ++
          " has exceeded maximum restart count (" ++ toString p.maxRestarts ++ ")")
        stopInvoked := false
        recordAtStart := none } := by
  unfold restartProcess
  rw [h]
  simp [hge]

/-- When the budget allows it, `restartProcess` increments the restart
counter first and hands the incremented record to `startProcess`; the
surviving record keeps the incremented counter and the old budget. -/
theorem restartProcess_attempt (plm : ProcessLifecycleManager) (id : Nat)
    (e : StopEnv) (l : LaunchResult) (n : Nat) (p : ManagedProcess)
    (h : lookupProc plm id = some p) (hlt : p.restartCount < p.maxRestarts) :
    (restartProcess plm id e l n).recordAtStart.map (fun r => r.restartCount)
        = some (p.restartCount + 1) ∧
    ∃ q, lookupProc (restartProcess plm id e l n).plm id = some q ∧
      q.restartCount = p.restartCount + 1 ∧ q.maxRestarts = p.maxRestarts := by
  have hng : ¬ p.maxRestarts ≤ p.restartCount := Nat.not_le.mpr hlt
  unfold restartProcess
  rw [h]
  simp only [hng, if_false, ite_false]
  have h1 : lookupProc
      (setProc plm id { p with state := ProcessState.Restarting,
                               restartCount := p.restartCount + 1 }) id
      = some { p with state := ProcessState.Restarting,
                      restartCount := p.restartCount + 1 } :=
    lookupProc_setProc_self plm id _ p h
  constructor
  · simp [h1]
  · obtain ⟨q, hq, hqc, hqm⟩ := startProcess_preserves _ id l n _ h1
    refine ⟨q, ?_, ?_, ?_⟩
    · simpa using hq
    · simpa using hqc
    · simpa using hqm

/-- Iterating `restartProcess` can reach `startProcess` at most
`maxRestarts - restartCount` times: every attempt increments the counter
and the guard refuses once the budget is reached. -/
theorem iterRestarts_le (id : Nat) (envs : List (StopEnv × LaunchResult × Nat)) :
    ∀ plm p, lookupProc plm id = some p →
      (iterRestarts plm id envs).2 ≤ p.maxRestarts - p.restartCount := by
  induction envs with
  | nil => intro plm p _; simp [iterRestarts]
  | cons e rest ih =>
    intro plm p h
    by_cases hge : p.maxRestarts ≤ p.restartCount
    · have hr := restartProcess_guard plm id e.1 e.2.1 e.2.2 p h hge
      have htail := ih plm p h
      simp only [iterRestarts, hr]
      simpa using htail
    · have hlt : p.restartCount < p.maxRestarts := Nat.not_le.mp hge
      obtain ⟨hrec, q, hq, hqc, hqm⟩ :=
        restartProcess_attempt plm id e.1 e.2.1 e.2.2 p h hlt
      have htail := ih (restartProcess plm id e.1 e.2.1 e.2.2).plm q hq
      have hsome : (restartProcess plm id e.1 e.2.1 e.2.2).recordAtStart.isSome
          = true := by
        cases hx : (restartProcess plm id e.1 e.2.1 e.2.2).recordAtStart with
        | none => rw [hx] at hrec; simp at hrec
        | some r => rfl
      simp only [iterRestarts, hsome, if_true]
      rw [hqc, hqm] at htail
      omega

/-- Appending a fresh key to the registry list makes it findable. -/
theorem find?_append_none (l : List (Nat × ManagedProcess)) (id : Nat)
    (p : ManagedProcess)
    (h : List.find? (fun kv => kv.1 == id) l = none) :
    List.find? (fun kv => kv.1 == id) (l ++ [(id, p)]) = some (id, p) := by
  induction l with
  | nil => exact List.find?_cons_of_pos _ (by simp)
  | cons kv t ih =>
    cases hkv : (kv.1 == id) with
    | true =>
      have hpos : List.find? (fun kv : Nat × ManagedProcess => kv.1 == id) (kv :: t)
          = some kv := List.find?_cons_of_pos t hkv
      rw [hpos] at h
      exact absurd h (by simp)
    | false =>
      rw [List.find?_cons_of_neg _ (by simp [hkv])] at h
      rw [List.cons_append, List.find?_cons_of_neg _ (by simp [hkv])]
      exact ih h

/-- A successful launch: Start on an existing record with satisfied
dependencies stores the pid, moves the record to Running, refreshes its
start timestamp and returns no error — for any prior state. -/
theorem startProcess_ok (plm : ProcessLifecycleManager) (id pid now : Nat)
    (p : ManagedProcess) (h : lookupProc plm id = some p)
    (hdeps : checkDependencies plm p = true) :
    startProcess plm id (LaunchResult.ok pid) now =
      (setProc plm id
        { p with state := ProcessState.Running, pid := pid,
                 startTime := now, hasCmd := true }, none) := by
  unfold startProcess
  split
  · rename_i hnone
    rw [h] at hnone
    exact absurd hnone (by simp)
  · rename_i q hq
    rw [h] at hq
    injection hq with hq
    subst hq
    simp [hdeps]

/-- A stop whose SIGTERM delivery succeeds: the record is moved to
Stopped with the end timestamp set, after the exit was observed on the
graceful path or on the kill path. -/
theorem stopProcess_ok (plm : ProcessLifecycleManager) (id now : Nat)
    (p : ManagedProcess) (env : StopEnv) (h : lookupProc plm id = some p)
    (hs : p.state = ProcessState.Running) (hc : p.hasCmd = true)
    (ho : env.sigOk = true) :
    stopProcess plm id env now =
      (setProc plm id
        { p with state := ProcessState.Stopped, endTime := some now },
       none,
       if env.graceful then
         [StopEvent.sigTermSent, StopEvent.procExited, StopEvent.setStopped]
       else
         [StopEvent.sigTermSent, StopEvent.killed, StopEvent.procExited,
          StopEvent.setStopped]) := by
  unfold stopProcess
  split
  · rename_i hnone
    rw [h] at hnone
    exact absurd hnone (by simp)
  · rename_i q hq
    rw [h] at hq
    injection hq with hq
    subst hq
    simp [hs, hc, ho]

/-- A stop whose SIGTERM delivery fails: StopProcess returns the signal
error immediately, leaving the record in Stopping, with no kill and no
exit observed. -/
theorem stopProcess_sigfail (plm : ProcessLifecycleManager) (id now : Nat)
    (p : ManagedProcess) (env : StopEnv) (h : lookupProc plm id = some p)
    (hs : p.state = ProcessState.Running) (hc : p.hasCmd = true)
    (ho : env.sigOk = false) :
    stopProcess plm id env now =
      (setProc plm id { p with state := ProcessState.Stopping },
       some ("failed to send SIGTERM to process " ++ toString id),
       [StopEvent.sigTermFailed]) := by
  unfold stopProcess
  split
  · rename_i hnone
    rw [h] at hnone
    exact absurd hnone (by simp)
  · rename_i q hq
    rw [h] at hq
    injection hq with hq
    subst hq
    simp [hs, hc, ho]

/-! The claims. -/

/-- C10: every record returned by CreateProcess starts with a maximum
restart count of 3, a restart counter of 0, working directory "/tmp", an
empty environment overlay, no dependencies, a zero pid and the default
process-alive health checker; ids start at 1 and each CreateProcess hands
out nextProcessID and then increments it. -/
theorem c10_create_defaults :
    newPLM.nextProcessID = 1 ∧
    ∀ plm name cmd now,
      (createProcess plm name cmd now).2.maxRestarts = 3 ∧
      (createProcess plm name cmd now).2.restartCount = 0 ∧
      (createProcess plm name cmd now).2.workDir = "/tmp" ∧
      (createProcess plm name cmd now).2.environment = [] ∧
      (createProcess plm name cmd now).2.dependencies = [] ∧
      (createProcess plm name cmd now).2.healthCheck
        = HealthCheckerKind.defaultChecker ∧
      (createProcess plm name cmd now).2.pid = 0 ∧
      (createProcess plm name cmd now).2.id = plm.nextProcessID ∧
      (createProcess plm name cmd now).1.nextProcessID = plm.nextProcessID + 1 :=
  ⟨rfl, fun _ _ _ _ => ⟨rfl, rfl, rfl, rfl, rfl, rfl, rfl, rfl, rfl⟩⟩

/-- C6 counterexample: CreateProcess with an empty command vector does
not fail, contrary to the claim — it allocates and stores a record in
state Created under the fresh id and increments the id counter. -/
theorem c6_counterexample :
    (createProcess newPLM "empty" [] 0).2.state = ProcessState.Created ∧
    (createProcess newPLM "empty" [] 0).2.command = [] ∧
    lookupProc (createProcess newPLM "empty" [] 0).1 1
      = some (createProcess newPLM "empty" [] 0).2 ∧
    (createProcess newPLM "empty" [] 0).1.nextProcessID = 2 :=
  ⟨rfl, rfl, rfl, rfl⟩

/-- C6 amended: CreateProcess never fails; for every name and command
vector — the empty one included — it allocates a new record in state
Created, stores it under the fresh id nextProcessID, and increments
nextProcessID. -/
theorem c6_create_never_fails :
    ∀ plm name cmd now, lookupProc plm plm.nextProcessID = none →
      (createProcess plm name cmd now).2.state = ProcessState.Created ∧
      (createProcess plm name cmd now).2.command = cmd ∧
      (createProcess plm name cmd now).2.id = plm.nextProcessID ∧
      lookupProc (createProcess plm name cmd now).1 plm.nextProcessID
        = some (createProcess plm name cmd now).2 ∧
      (createProcess plm name cmd now).1.nextProcessID = plm.nextProcessID + 1 := by
  intro plm name cmd now h
  refine ⟨rfl, rfl, rfl, ?_, rfl⟩
  have h0 : List.find? (fun kv => kv.1 == plm.nextProcessID) plm.processes
      = none := by
    unfold lookupProc at h
    cases hf : List.find? (fun kv => kv.1 == plm.nextProcessID) plm.processes with
    | none => rfl
    | some kv => rw [hf] at h; simp at h
  unfold lookupProc createProcess
  simp only []
  rw [find?_append_none _ _ _ h0]
  rfl

/-- C6 witness: the amended claim applied to a fresh manager and the
empty command vector. -/
theorem c6_witness :
    (createProcess newPLM "empty" [] 0).2.state = ProcessState.Created ∧
    (createProcess newPLM "empty" [] 0).2.command = [] ∧
    (createProcess newPLM "empty" [] 0).2.id = newPLM.nextProcessID ∧
    lookupProc (createProcess newPLM "empty" [] 0).1 newPLM.nextProcessID
      = some (createProcess newPLM "empty" [] 0).2 ∧
    (createProcess newPLM "empty" [] 0).1.nextProcessID
      = newPLM.nextProcessID + 1 :=
  c6_create_never_fails newPLM "empty" [] 0 (by rfl)

/-- C7: StartProcess on a record one of whose dependency ids is missing
from the registry or names a record that is not Running returns the
dependency error and leaves the whole manager (hence the record's state)
unchanged, attempting no launch. -/
theorem c7_start_dependency_gate :
    ∀ plm id p d launch now, lookupProc plm id = some p →
      d ∈ p.dependencies →
      ((lookupProc plm d).map
          (fun q => q.state == ProcessState.Running)).getD false = false →
      startProcess plm id launch now =
        (plm, some ("dependencies not satisfied for process " ++ toString id)) := by
  intro plm id p d launch now h hd hdep
  have hchk : checkDependencies plm p = false := by
    cases hc : checkDependencies plm p with
    | false => rfl
    | true =>
      have hall := List.all_eq_true.mp hc d hd
      cases hq : lookupProc plm d with
      | none => rw [hq] at hall; simp at hall
      | some q =>
        rw [hq] at hall hdep
        simp only [Option.map_some', Option.getD_some] at hdep
        simp only [hq] at hall
        rw [hdep] at hall
        simp at hall
  unfold startProcess
  split
  · rename_i hnone
    rw [h] at hnone
    exact absurd hnone (by simp)
  · rename_i q hq
    rw [h] at hq
    injection hq with hq
    subst hq
    simp only [hchk, Bool.false_eq_true, if_false]

/-- C7 witness: the gate applied to `exDeps`, where record 2 depends on
record 1, which exists but is only in state Created. -/
theorem c7_witness :
    startProcess exDeps 2 (LaunchResult.ok 9) 5 =
      (exDeps, some ("dependencies not satisfied for process " ++ toString 2)) :=
  c7_start_dependency_gate exDeps 2 exDepsRec 1 (LaunchResult.ok 9) 5
    (by rfl) (by decide) (by rfl)

/-- C1 counterexample: in `exStopped` (create, start with pid 42, stop)
record 1 is observable in state Stopped while its PID field still holds
42, so the claimed biconditional between a non-zero PID and being in
Starting/Running/Stopping fails, and the PID is not back to zero after
Stop. -/
theorem c1_counterexample :
    (lookupProc exStopped 1).map (fun p => (p.state, p.pid))
      = some (ProcessState.Stopped, 42) ∧
    ¬ ((42 : Nat) ≠ 0 ↔ (ProcessState.Stopped = ProcessState.Starting ∨
        ProcessState.Stopped = ProcessState.Running ∨
        ProcessState.Stopped = ProcessState.Stopping)) :=
  ⟨rfl, by decide⟩

/-- C1 amended: the PID field is 0 at creation; each successful Start
sets it to the pid of the launch; StopProcess never resets it — the pid
after any Stop equals the pid before, so once a record has been
launched its PID field stays non-zero even in state Stopped. -/
theorem c1_pid_lifecycle :
    (∀ plm name cmd now, (createProcess plm name cmd now).2.pid = 0) ∧
    (∀ plm id p pid now, lookupProc plm id = some p →
       checkDependencies plm p = true →
       (lookupProc (startProcess plm id (LaunchResult.ok pid) now).1 id).map
          (fun q => q.pid) = some pid) ∧
    (∀ plm id p env now, lookupProc plm id = some p →
       (lookupProc (stopProcess plm id env now).1 id).map (fun q => q.pid)
         = some p.pid) := by
  refine ⟨fun _ _ _ _ => rfl, ?_, ?_⟩
  · intro plm id p pid now h hdeps
    rw [startProcess_ok plm id pid now p h hdeps]
    simp [lookupProc_setProc_self plm id _ p h]
  · intro plm id p env now h
    obtain ⟨q, hq, _, _, hpid⟩ := stopProcess_preserves plm id env now p h
    rw [hq]
    simp [hpid]

/-- C1 witness: the amended claim at the concrete trace create, start
with pid 42, stop. -/
theorem c1_witness :
    (createProcess newPLM "sleeper" ["sleep", "30"] 0).2.pid = 0 ∧
    (lookupProc (startProcess exCreated 1 (LaunchResult.ok 42) 1).1 1).map
        (fun q => q.pid) = some 42 ∧
    (lookupProc (stopProcess exRunning 1 stopEnvOk 2).1 1).map (fun q => q.pid)
      = some exRunningRec.pid :=
  ⟨c1_pid_lifecycle.1 newPLM "sleeper" ["sleep", "30"] 0,
   c1_pid_lifecycle.2.1 exCreated 1
     (createProcess newPLM "sleeper" ["sleep", "30"] 0).2 42 1 (by rfl) (by rfl),
   c1_pid_lifecycle.2.2 exRunning 1 exRunningRec stopEnvOk 2 (by rfl)⟩

/-- C2 counterexample: record 1 in `exRunning` is in state Running — not
Created and not Failed — yet StartProcess on it returns no error and
launches again, contrary to the claimed rejection. -/
theorem c2_counterexample :
    (lookupProc exRunning 1).map (fun p => p.state)
      = some ProcessState.Running ∧
    (startProcess exRunning 1 (LaunchResult.ok 43) 2).2 = none :=
  ⟨rfl, rfl⟩

/-- C2 amended: StartProcess performs no state check at all: on any
existing record with satisfied dependencies — whatever its current
state, Running included — a successful launch returns no error and moves
the record to Running. Only a missing record, unsatisfied dependencies
or a launch failure produce errors. -/
theorem c2_start_ignores_state :
    ∀ plm id p pid now, lookupProc plm id = some p →
      checkDependencies plm p = true →
      (startProcess plm id (LaunchResult.ok pid) now).2 = none ∧
      (lookupProc (startProcess plm id (LaunchResult.ok pid) now).1 id).map
          (fun q => q.state) = some ProcessState.Running := by
  intro plm id p pid now h hdeps
  rw [startProcess_ok plm id pid now p h hdeps]
  exact ⟨rfl, by simp [lookupProc_setProc_self plm id _ p h]⟩

/-- C2 witness: the amended claim at `exRunning`, whose record is in
state Running when Start is called again. -/
theorem c2_witness :
    (startProcess exRunning 1 (LaunchResult.ok 43) 2).2 = none ∧
    (lookupProc (startProcess exRunning 1 (LaunchResult.ok 43) 2).1 1).map
        (fun q => q.state) = some ProcessState.Running :=
  c2_start_ignores_state exRunning 1 exRunningRec 43 2 (by rfl) (by rfl)

/-- C4 counterexample: on the running record of `exRunning`, a Stop whose
SIGTERM delivery fails returns the error but leaves the record in
Stopping — the trace shows no kill and no transition to Stopped,
contrary to the claim that the forceful-kill path is still attempted. -/
theorem c4_counterexample :
    (stopProcess exRunning 1 stopEnvSigFail 2).2.1.isSome = true ∧
    (lookupProc (stopProcess exRunning 1 stopEnvSigFail 2).1 1).map
        (fun p => p.state) = some ProcessState.Stopping ∧
    (stopProcess exRunning 1 stopEnvSigFail 2).2.2 = [StopEvent.sigTermFailed] :=
  ⟨rfl, rfl, rfl⟩

/-- C4 amended: when delivering SIGTERM to a running record's process
fails, StopProcess surfaces the error and returns immediately: no
forceful kill is attempted, no exit is awaited, and the record is left
in state Stopping rather than reaching Stopped. -/
theorem c4_sigterm_failure_aborts_stop :
    ∀ plm id p env now, lookupProc plm id = some p →
      p.state = ProcessState.Running → p.hasCmd = true → env.sigOk = false →
      stopProcess plm id env now =
        (setProc plm id { p with state := ProcessState.Stopping },
         some ("failed to send SIGTERM to process " ++ toString id),
         [StopEvent.sigTermFailed]) ∧
      (lookupProc (stopProcess plm id env now).1 id).map (fun q => q.state)
        = some ProcessState.Stopping := by
  intro plm id p env now h hs hc ho
  have heq := stopProcess_sigfail plm id now p env h hs hc ho
  refine ⟨heq, ?_⟩
  rw [heq]
  simp [lookupProc_setProc_self plm id _ p h]

/-- C4 witness: the amended claim at `exRunning` with failing SIGTERM
delivery. -/
theorem c4_witness :
    (stopProcess exRunning 1 stopEnvSigFail 2 =
      (setProc exRunning 1 { exRunningRec with state := ProcessState.Stopping },
       some ("failed to send SIGTERM to process " ++ toString 1),
       [StopEvent.sigTermFailed])) ∧
    (lookupProc (stopProcess exRunning 1 stopEnvSigFail 2).1 1).map
        (fun q => q.state) = some ProcessState.Stopping :=
  c4_sigterm_failure_aborts_stop exRunning 1 exRunningRec stopEnvSigFail 2
    (by rfl) (by rfl) (by rfl) (by rfl)

/-- A first ShutdownAll on a manager whose channel is still open
completes and leaves the shutdown flag closed. -/
theorem shutdownAll_sets_flag (plm : ProcessLifecycleManager) (env : StopEnv)
    (now : Nat) (h : plm.shutdownClosed = false) :
    ∃ plm2, shutdownAll plm env now = Except.ok plm2 ∧
      plm2.shutdownClosed = true := by
  unfold shutdownAll
  rw [if_neg (by simp [h])]
  exact ⟨_, rfl, by rw [foldl_stopProcess_shutdownClosed]⟩

/-- C9: StopProcess on a running record whose SIGTERM is delivered
always ends with the record in state Stopped and its end timestamp set
to the stop time (hence at or after the start timestamp, the clock being
monotone), and in the event trace — graceful wait or forceful-kill
backstop alike — setStopped occurs and only after procExited. -/
theorem c9_stop_reaches_stopped :
    ∀ plm id p env now, lookupProc plm id = some p →
      p.state = ProcessState.Running → p.hasCmd = true → env.sigOk = true →
      p.startTime ≤ now →
      (stopProcess plm id env now).2.1 = none ∧
      lookupProc (stopProcess plm id env now).1 id
        = some { p with state := ProcessState.Stopped, endTime := some now } ∧
      (lookupProc (stopProcess plm id env now).1 id).map (fun q => q.endTime)
        = some (some now) ∧
      p.startTime ≤ now ∧
      StopEvent.setStopped ∈ (stopProcess plm id env now).2.2 ∧
      stoppedAfterExit (stopProcess plm id env now).2.2 := by
  intro plm id p env now h hs hc ho hmono
  have heq := stopProcess_ok plm id now p env h hs hc ho
  have hlook := lookupProc_setProc_self plm id
    { p with state := ProcessState.Stopped, endTime := some now } p h
  refine ⟨by rw [heq], ?_, ?_, hmono, ?_, ?_⟩
  · rw [heq]
    exact hlook
  · rw [heq]
    simp [hlook]
  · rw [heq]
    cases hgr : env.graceful with
    | true => simp [hgr]
    | false => simp [hgr]
  · rw [heq]
    cases hgr : env.graceful with
    | true =>
      simp only [hgr, if_true]
      unfold stoppedAfterExit
      decide
    | false =>
      simp only [hgr, Bool.false_eq_true, if_false]
      unfold stoppedAfterExit
      decide

/-- C9 witness: the theorem at the concrete running record of
`exRunning`, stopped at time 2 with a graceful exit. -/
theorem c9_witness :
    (stopProcess exRunning 1 stopEnvOk 2).2.1 = none ∧
    lookupProc (stopProcess exRunning 1 stopEnvOk 2).1 1
      = some { exRunningRec with
          state := ProcessState.Stopped, endTime := some 2 } ∧
    (lookupProc (stopProcess exRunning 1 stopEnvOk 2).1 1).map
        (fun q => q.endTime) = some (some 2) ∧
    exRunningRec.startTime ≤ 2 ∧
    StopEvent.setStopped ∈ (stopProcess exRunning 1 stopEnvOk 2).2.2 ∧
    stoppedAfterExit (stopProcess exRunning 1 stopEnvOk 2).2.2 :=
  c9_stop_reaches_stopped exRunning 1 exRunningRec stopEnvOk 2
    (by rfl) (by rfl) (by rfl) (by rfl) (by decide)

/-- C5: contrary to the claim (and to the code's own comment "Stop if
running"), RestartProcess never invokes StopProcess: it has already
overwritten the record's state with Restarting when it tests for
Running/Starting, so the stop branch is dead for every input and a
running process is never stopped before the re-launch. -/
theorem c5_restart_never_stops :
    ∀ plm id e l n, (restartProcess plm id e l n).stopInvoked = false := by
  intro plm id e l n
  unfold restartProcess
  split
  · rfl
  · rename_i p hp
    by_cases hge : p.maxRestarts ≤ p.restartCount
    · simp [hge]
    · simp [hge]

/-- C3: contrary to the claim, ShutdownAll is not idempotent: for every
manager state, the second of two successive ShutdownAll calls faults
(the Go code panics closing the already-closed shutdown channel) instead
of completing normally. -/
theorem c3_shutdown_twice_panics :
    ∀ plm env now env2 now2,
      Except.bind (shutdownAll plm env now)
        (fun plm2 => shutdownAll plm2 env2 now2)
        = Except.error "close of closed channel" := by
  intro plm env now env2 now2
  cases h : plm.shutdownClosed with
  | true =>
    have h1 : shutdownAll plm env now = Except.error "close of closed channel" := by
      unfold shutdownAll
      rw [if_pos h]
    rw [h1]
    rfl
  | false =>
    obtain ⟨plm2, h1, h2⟩ := shutdownAll_sets_flag plm env now h
    rw [h1]
    show shutdownAll plm2 env2 now2 = Except.error "close of closed channel"
    unfold shutdownAll
    rw [if_pos h2]

/-- C8: RestartProcess refuses the call outright once the restart
counter has reached the budget (error returned, manager unchanged, no
launch); below the budget it increments the counter before the record is
handed to StartProcess; the monitor triggers an automatic restart on a
health failure exactly while the counter is below the budget; and any
sequence of RestartProcess invocations on a record with a fresh counter
reaches StartProcess at most maxRestarts times. -/
theorem c8_restart_budget :
    (∀ plm id e l n p, lookupProc plm id = some p →
       p.maxRestarts ≤ p.restartCount →
       (restartProcess plm id e l n).plm = plm ∧
       (restartProcess plm id e l n).err.isSome = true ∧
       (restartProcess plm id e l n).recordAtStart = none) ∧
    (∀ plm id e l n p, lookupProc plm id = some p →
       p.restartCount < p.maxRestarts →
       (restartProcess plm id e l n).recordAtStart.map (fun r => r.restartCount)
         = some (p.restartCount + 1)) ∧
    (∀ p healthy, (monitorTick p healthy).1 = MonitorAction.restartTriggered ↔
       (p.state = ProcessState.Running ∧ healthy = false ∧
        p.restartCount < p.maxRestarts)) ∧
    (∀ plm id envs p, lookupProc plm id = some p → p.restartCount = 0 →
       (iterRestarts plm id envs).2 ≤ p.maxRestarts) := by
  refine ⟨?_, ?_, ?_, ?_⟩
  · intro plm id e l n p h hge
    rw [restartProcess_guard plm id e l n p h hge]
    exact ⟨rfl, rfl, rfl⟩
  · intro plm id e l n p h hlt
    exact (restartProcess_attempt plm id e l n p h hlt).1
  · intro p healthy
    unfold monitorTick
    by_cases hs : p.state = ProcessState.Running
    · by_cases hh : healthy
      · simp [hs, hh]
      · by_cases hr : p.restartCount < p.maxRestarts
        · simp [hs, hh, hr]
        · simp [hs, hh, hr]
    · simp [hs]
  · intro plm id envs p h h0
    have hb := iterRestarts_le id envs plm p h
    rw [h0] at hb
    simpa using hb

/-- C8 witness: the four conjuncts at concrete managers — a record with
its budget used up (`exExhausted`), the running record of `exRunning`
with counter 0, a failed health check on that record, and five
successive restart invocations. -/
theorem c8_witness :
    ((restartProcess exExhausted 1 stopEnvOk (LaunchResult.ok 43) 3).plm
       = exExhausted ∧
     (restartProcess exExhausted 1 stopEnvOk (LaunchResult.ok 43) 3).err.isSome
       = true ∧
     (restartProcess exExhausted 1 stopEnvOk (LaunchResult.ok 43) 3).recordAtStart
       = none) ∧
    (restartProcess exRunning 1 stopEnvOk (LaunchResult.ok 43) 3).recordAtStart.map
        (fun r => r.restartCount) = some (exRunningRec.restartCount + 1) ∧
    ((monitorTick exRunningRec false).1 = MonitorAction.restartTriggered ↔
      (exRunningRec.state = ProcessState.Running ∧ false = false ∧
       exRunningRec.restartCount < exRunningRec.maxRestarts)) ∧
    (iterRestarts exRunning 1
        [(stopEnvOk, LaunchResult.ok 43, 3), (stopEnvOk, LaunchResult.ok 44, 4),
         (stopEnvOk, LaunchResult.ok 45, 5), (stopEnvOk, LaunchResult.ok 46, 6),
         (stopEnvOk, LaunchResult.ok 47, 7)]).2 ≤ exRunningRec.maxRestarts :=
  ⟨c8_restart_budget.1 exExhausted 1 stopEnvOk (LaunchResult.ok 43) 3
     exExhaustedRec (by rfl) (by decide),
   c8_restart_budget.2.1 exRunning 1 stopEnvOk (LaunchResult.ok 43) 3
     exRunningRec (by rfl) (by decide),
   c8_restart_budget.2.2.1 exRunningRec false,
   c8_restart_budget.2.2.2 exRunning 1
     [(stopEnvOk, LaunchResult.ok 43, 3), (stopEnvOk, LaunchResult.ok 44, 4),
      (stopEnvOk, LaunchResult.ok 45, 5), (stopEnvOk, LaunchResult.ok 46, 6),
      (stopEnvOk, LaunchResult.ok 47, 7)] exRunningRec (by rfl) (by rfl)⟩

end Lifecycle
